import Mathlib

/-!
Verification of the freqsearch optimization orchestrator
(python-agents/src/freqsearch_agents/agents/orchestrator).

Shallow embedding of:
  * core/state.py              SingleIterationState
  * agents/orchestrator/iteration_nodes.py   the five pipeline nodes
  * agents/orchestrator/context.py           OptimizationContext
  * agents/orchestrator/runner.py            OrchestratorRunner
  * core/messaging.py          Events routing keys and publish_event
  * grpc_client/client.py      _map_grpc_error

External collaborators (Engineer agent, Analyst agent, the gRPC backend)
are modelled as oracles: for each external call site the oracle supplies
either a raised-exception outcome or a returned value, indexed by the
retry or poll counter where the source indexes its calls that way.

Python floats carry -inf (the initial best value) and possibly NaN, so
sharpe values are modelled by an inductive type with IEEE comparison
semantics.  Python dict lookups with defaults (d.get(k, v)) are modelled
by Option fields plus getD at the use site, or by folding the default
into the field when the source always supplies the same default.
-/

namespace FS

/-- Python float values as used for sharpe tracking: negative infinity,
NaN, or a finite value (modelled as a rational). -/
inductive PyFloat where
  | ninf : PyFloat
  | nan : PyFloat
  | fin (q : ℚ) : PyFloat
deriving DecidableEq, Repr

/-- IEEE strict greater-than on modelled floats: any comparison with NaN
is false, ninf is greater than nothing, every finite value is greater
than ninf.  This is the `current_sharpe > state["best_sharpe"]`
comparison in decide_next_node. -/
def PyFloat.gt : PyFloat → PyFloat → Bool
  | .nan, _ => false
  | _, .nan => false
  | .ninf, _ => false
  | .fin _, .ninf => true
  | .fin a, .fin b => decide (b < a)

/-- Non-decreasing relation used to state monotonicity: the new value is
the old one, or strictly greater in the sense of PyFloat.gt. -/
def PyFloat.sle (a b : PyFloat) : Prop := b = a ∨ PyFloat.gt b a = true

/-- Result dict returned by the Engineer agent (run_engineer), with the
defaults applied at the access sites folded in:
get("validation_passed", False), get("validation_errors", []),
get("generated_code", ""), get("code", ""). -/
structure EngineerResult where
  validation_passed : Bool
  validation_errors : List String
  generated_code : String
  code : String
deriving DecidableEq, Repr

/-- Reading `engineer_result.get("generated_code", "") or engineer_result.get("code", "")`:
Python `or` keeps the first operand when it is truthy (a non-empty string). -/
def pickCode (er : EngineerResult) : String :=
  if er.generated_code = "" then er.code else er.generated_code

/-- Response of client.validate_strategy as read by the node:
get("valid", False) and get("errors", ...). -/
structure ValidationResult where
  valid : Bool
  errors : List String
deriving DecidableEq, Repr

/-- Backtest result dict; only the keys the orchestrator reads are kept:
"status", "error", "sharpe_ratio" (field named sharpe here). -/
structure BacktestResult where
  status : Option String
  error : Option String
  sharpe : Option PyFloat
deriving DecidableEq, Repr

/-- Python dict truthiness for a backtest result: the empty dict is
falsy.  A result with no modelled key set corresponds to the empty dict. -/
def BacktestResult.isFalsy (br : BacktestResult) : Bool :=
  br.status = none && br.error = none && br.sharpe = none

/-- Response of client.get_backtest_job as read while polling:
get("status", "unknown") and get("error", "Unknown backtest error"). -/
structure JobResponse where
  status : Option String
  error : Option String
deriving DecidableEq, Repr

/-- Result dict returned by the Analyst agent (run_analyst), keys as read
by invoke_analyst_node. -/
structure AnalystResult where
  decision : Option String
  suggestion_description : Option String
  issues : List String
  root_causes : List String
deriving DecidableEq, Repr

/-- SingleIterationState from core/state.py.  backtest_config is carried
as an uninterpreted association list (the orchestrator only forwards it). -/
structure IterationState where
  optimization_run_id : String
  current_iteration : Nat
  base_strategy_id : String
  current_strategy_id : String
  backtest_config : List (String × String)
  input_code : String
  input_feedback : Option String
  mode : String
  best_sharpe : PyFloat
  best_strategy_id : Option String
  engineer_result : Option EngineerResult
  generated_strategy_id : Option String
  backtest_job_id : Option String
  backtest_result : Option BacktestResult
  analyst_decision : Option String
  analyst_feedback : Option String
  validation_passed : Bool
  validation_retry_count : Nat
  should_terminate : Bool
  termination_reason : Option String
  is_new_best : Bool
  new_best_sharpe : Option PyFloat
deriving DecidableEq, Repr

/-- Oracle for all external calls made during one pipeline invocation.
engineer and validate are indexed by the validation retry counter (the
source builds a distinct thread id v{count} per retry); job and result
are indexed by the poll counter.  An `Except.error` models the call
raising an exception. -/
structure Oracle where
  engineer : Nat → Except String EngineerResult
  validate : Nat → Except String ValidationResult
  createStrategy : Except String String
  submitBacktest : Except String String
  job : Nat → Except String JobResponse
  result : Nat → Except String BacktestResult
  analyst : Except String AnalystResult

/-- The Events class body from core/messaging.py, as an association list
from attribute name to routing key.  Note that no OPTIMIZATION_* routing
keys are defined in the source class. -/
def eventsTable : List (String × String) :=
  [("STRATEGY_DISCOVERED", "strategy.discovered"),
   ("STRATEGY_NEEDS_PROCESSING", "strategy.needs_processing"),
   ("STRATEGY_READY_FOR_BACKTEST", "strategy.ready_for_backtest"),
   ("STRATEGY_APPROVED", "strategy.approved"),
   ("STRATEGY_EVOLVE", "strategy.evolve"),
   ("STRATEGY_ARCHIVED", "strategy.archived"),
   ("BACKTEST_SUBMITTED", "backtest.submitted"),
   ("BACKTEST_STARTED", "backtest.started"),
   ("BACKTEST_COMPLETED", "backtest.completed"),
   ("BACKTEST_FAILED", "backtest.failed"),
   ("SCOUT_TRIGGER", "scout.trigger"),
   ("SCOUT_STARTED", "scout.started"),
   ("SCOUT_PROGRESS", "scout.progress"),
   ("SCOUT_COMPLETED", "scout.completed"),
   ("SCOUT_FAILED", "scout.failed"),
   ("SCOUT_CANCELLED", "scout.cancelled"),
   ("AGENT_HEARTBEAT", "agent.heartbeat")]

/-- Attribute lookup Events.NAME: none models the attribute being absent
from the class (publishing through it cannot reach the broker with any
routing key). -/
def eventsAttr (name : String) : Option String :=
  (eventsTable.find? (fun p => p.fst = name)).map (fun p => p.snd)

/-- Payload of a published event, restricted to the fields the runner and
the pipeline actually put in the body dict. -/
inductive Payload where
  | iterStarted (runId : String) (iteration maxIterations : Nat)
  | iterCompleted (runId : String) (iteration : Nat) (decision : Option String)
      (sharpe : Option PyFloat) (isBest : Bool)
  | newBest (runId : String) (iteration : Nat) (strategyId : Option String)
      (sharpe : PyFloat)
deriving DecidableEq, Repr

/-- Observable backend-mutating effects: control_optimization calls and
event publications.  Read-only RPC calls (loads) are pure in this model. -/
inductive Effect where
  | control (runId action : String) (reason bestStrategyId : Option String)
  | publish (key : Option String) (payload : Payload)
deriving DecidableEq, Repr

/-- MAX_VALIDATION_RETRIES from iteration_nodes.py. -/
def MAX_VALIDATION_RETRIES : Nat := 5

/-- Outcome of the validation retry loop of validate_and_engineer_node:
one of the four return dicts of the node. -/
inductive VEOut where
  | exception
  | noCode
  | success (er : EngineerResult) (retries : Nat)
  | exhausted (retries : Nat)
deriving DecidableEq, Repr

/-- Effective validation result: on a transport exception the node
substitutes the dict with valid set to true (trust the engineer). -/
def effValidate (o : Oracle) (k : Nat) : ValidationResult :=
  match o.validate k with
  | .error _ => { valid := true, errors := [] }
  | .ok v => v

/-- Outcome of one pass of the validation retry loop body: either the
node returns (with one of the four return dicts), or the pass falls
through to the next retry (engineer self-validation failed, or backend
validation reported invalid). -/
inductive VEStep where
  | finish (out : VEOut)
  | again
deriving DecidableEq, Repr

/-- One pass of the body of the `while validation_retry_count <
MAX_VALIDATION_RETRIES` loop in validate_and_engineer_node: run the
Engineer (an exception returns engineer_exception); on failed
self-validation retry; on empty generated code return engineer_no_code;
validate against the backend, trusting the Engineer when the call
itself raises; on valid return success, otherwise retry. -/
def veStep (o : Oracle) (retry : Nat) : VEStep :=
  match o.engineer retry with
  | .error _ => .finish .exception
  | .ok er =>
    if er.validation_passed = false then .again
    else if pickCode er = "" then .finish .noCode
    else if (effValidate o retry).valid then .finish (.success er retry)
    else .again

/-- The `while validation_retry_count < MAX_VALIDATION_RETRIES` loop of
validate_and_engineer_node.  retry is the current counter; fuel is the
remaining budget MAX_VALIDATION_RETRIES - retry (the loop is entered
with retry = 0, fuel = MAX_VALIDATION_RETRIES, and retry + fuel is
invariant, so fuel reaching 0 is exactly the loop guard failing).  The
second component counts calls to the Engineer. -/
def veLoop (o : Oracle) : Nat → Nat → VEOut × Nat
  | retry, 0 => (.exhausted retry, 0)
  | retry, fuel + 1 =>
    match veStep o retry with
    | .finish w => (w, 1)
    | .again =>
      let rest := veLoop o (retry + 1) fuel
      (rest.fst, rest.snd + 1)

/-- Merge the dict returned by validate_and_engineer_node into the
graph state (LangGraph merges returned keys over the previous state). -/
def applyVE (s : IterationState) : VEOut → IterationState
  | .exception =>
    { s with should_terminate := true,
             termination_reason := some "engineer_exception",
             validation_passed := false }
  | .noCode =>
    { s with should_terminate := true,
             termination_reason := some "engineer_no_code",
             validation_passed := false }
  | .success er r =>
    { s with engineer_result := some er,
             validation_passed := true,
             validation_retry_count := r }
  | .exhausted r =>
    { s with validation_passed := false,
             validation_retry_count := r,
             should_terminate := true,
             termination_reason := some "validation_max_retries" }

/-- Stage 1: validate_and_engineer_node. -/
def validateAndEngineerNode (s : IterationState) (o : Oracle) : IterationState :=
  applyVE s (veLoop o 0 MAX_VALIDATION_RETRIES).fst

/-- Number of Engineer invocations made by stage 1. -/
def veEngineerCalls (o : Oracle) : Nat :=
  (veLoop o 0 MAX_VALIDATION_RETRIES).snd

/-- One pass of the retry loop continues to the next pass (rather than
returning): the engineer self-validation failed, or the generated code
is non-empty but backend validation reports invalid. -/
def attemptContinues (o : Oracle) (k : Nat) : Bool :=
  decide (veStep o k = .again)

/-- Stage 2: submit_backtest_node.  Skips unless validation passed;
creates the strategy (parent is the current strategy) then submits the
backtest; either RPC raising terminates the iteration. -/
def submitBacktestNode (s : IterationState) (o : Oracle) : IterationState :=
  if s.validation_passed = false then s
  else
    match o.createStrategy with
    | .error _ =>
      { s with should_terminate := true,
               termination_reason := some "strategy_creation_failed" }
    | .ok sid =>
      match o.submitBacktest with
      | .error _ =>
        { s with generated_strategy_id := some sid,
                 should_terminate := true,
                 termination_reason := some "backtest_submission_failed" }
      | .ok jid =>
        { s with generated_strategy_id := some sid,
                 backtest_job_id := some jid }

/-- Outcome of the polling loop of wait_for_result_node. -/
inductive WaitOut where
  | gotResult (br : BacktestResult)
  | synthFailed (err : String)
  | cancelled
  | timeout
deriving DecidableEq, Repr

/-- Outcome of one poll pass of wait_for_result_node: the node returns,
or the pass sleeps and polls again. -/
inductive PollStep where
  | finish (out : WaitOut)
  | again
deriving DecidableEq, Repr

/-- One pass of the polling loop body: fetch the job (an exception is
logged and the pass retries); on completed fetch the result (an
exception there also falls into the except branch and retries); on
failed return the synthetic failed dict; on cancelled return the
termination update; any other status polls again. -/
def pollStep (o : Oracle) (n : Nat) : PollStep :=
  match o.job n with
  | .error _ => .again
  | .ok jr =>
    match jr.status.getD "unknown" with
    | "completed" =>
      match o.result n with
      | .error _ => .again
      | .ok br => .finish (.gotResult br)
    | "failed" => .finish (.synthFailed (jr.error.getD "Unknown backtest error"))
    | "cancelled" => .finish .cancelled
    | _ => .again

/-- The polling loop of wait_for_result_node.  Every pass that does not
return sleeps BACKTEST_POLL_INTERVAL = 5 seconds, so total_wait is
5 * n where n is the pass counter; the guard total_wait < 600 is
n < 120, hence fuel starts at 120 and n + fuel is invariant. -/
def waitLoop (o : Oracle) : Nat → Nat → WaitOut
  | _, 0 => .timeout
  | n, fuel + 1 =>
    match pollStep o n with
    | .finish w => w
    | .again => waitLoop o (n + 1) fuel

/-- Merge of the wait_for_result_node return dict into the state.  The
failed branch returns the synthetic result dict with keys "error" and
"status" only; it does not touch should_terminate. -/
def applyWait (s : IterationState) : WaitOut → IterationState
  | .gotResult br => { s with backtest_result := some br }
  | .synthFailed err =>
    let br : BacktestResult := { status := some "failed", error := some err, sharpe := none }
    { s with backtest_result := some br }
  | .cancelled =>
    { s with should_terminate := true,
             termination_reason := some "backtest_cancelled" }
  | .timeout =>
    { s with should_terminate := true,
             termination_reason := some "backtest_timeout" }

/-- Stage 3: wait_for_result_node.  `if not job_id` treats both a
missing key and an empty string as no job. -/
def waitForResultNode (s : IterationState) (o : Oracle) : IterationState :=
  match s.backtest_job_id with
  | none => s
  | some jid =>
    if jid = "" then s
    else applyWait s (waitLoop o 0 (600 / 5))

/-- A poll pass that continues (does not return): the job RPC raised,
the status is neither completed nor failed nor cancelled, or the status
is completed but the result fetch raised. -/
def pollContinues (o : Oracle) (k : Nat) : Bool :=
  decide (pollStep o k = .again)

/-- The decision_map dict of invoke_analyst_node with its .get default:
exact string match on the three lowercase keys, anything else maps to
NEEDS_MODIFICATION. -/
def decisionMap (d : String) : String :=
  if d = "approve" then "READY_FOR_LIVE"
  else if d = "modify" then "NEEDS_MODIFICATION"
  else if d = "archive" then "ARCHIVE"
  else "NEEDS_MODIFICATION"

/-- Python truthiness of an optional string: present and non-empty. -/
def truthyStr : Option String → Bool
  | none => false
  | some s => s ≠ ""

/-- The feedback_parts concatenation of invoke_analyst_node. -/
def analystFeedback (ar : AnalystResult) : Option String :=
  let parts :=
    (match ar.suggestion_description with
     | some d => if d ≠ "" then [d] else []
     | none => []) ++
    (if ar.issues ≠ [] then ["Issues: " ++ String.intercalate ", " ar.issues] else []) ++
    (if ar.root_causes ≠ [] then
       ["Root causes: " ++ String.intercalate ", " ar.root_causes] else [])
  if parts = [] then none else some (String.intercalate " " parts)

/-- Stage 4: invoke_analyst_node.  The Bool reports whether the LLM
analyst was invoked.  A falsy (absent or empty) backtest result skips
the stage; a result with status "failed" short-circuits to
NEEDS_MODIFICATION with the error text, without calling the analyst;
an analyst exception degrades to NEEDS_MODIFICATION with the exception
text. -/
def invokeAnalystNode (s : IterationState) (o : Oracle) : IterationState × Bool :=
  match s.backtest_result with
  | none => (s, false)
  | some br =>
    if br.isFalsy then (s, false)
    else if br.status = some "failed" then
      ({ s with analyst_decision := some "NEEDS_MODIFICATION",
                analyst_feedback :=
                  some ("Backtest failed: " ++ br.error.getD "Unknown error") },
       false)
    else
      match o.analyst with
      | .error e =>
        ({ s with analyst_decision := some "NEEDS_MODIFICATION",
                  analyst_feedback := some ("Analyst exception: " ++ e) },
         true)
      | .ok ar =>
        ({ s with analyst_decision := some (decisionMap (ar.decision.getD "modify")),
                  analyst_feedback := analystFeedback ar },
         true)

/-- Stage 5: decide_next_node.  Returns the updated state and the list
of events published (the new-best event when the current sharpe is
strictly greater than the incoming best). -/
def decideNextNode (s : IterationState) : IterationState × List Effect :=
  if s.should_terminate then (s, [])
  else
    let cur :=
      match s.backtest_result with
      | none => PyFloat.ninf
      | some br => br.sharpe.getD PyFloat.ninf
    let stepBest :=
      if PyFloat.gt cur s.best_sharpe then
        ({ s with is_new_best := true, new_best_sharpe := some cur },
         [Effect.publish (eventsAttr "OPTIMIZATION_NEW_BEST")
            (.newBest s.optimization_run_id s.current_iteration
               s.generated_strategy_id cur)])
      else (s, ([] : List Effect))
    let s1 := stepBest.fst
    let s2 :=
      if s.analyst_decision = some "READY_FOR_LIVE" then
        { s1 with should_terminate := true, termination_reason := some "approved" }
      else if s.analyst_decision = some "ARCHIVE" then
        { s1 with should_terminate := true, termination_reason := some "archived" }
      else s1
    (s2, stepBest.snd)

/-- One invocation of the linear single-iteration graph
(validate_and_engineer → submit_backtest → wait_for_result →
invoke_analyst → decide_next), with the events it published. -/
def pipelineRun (s : IterationState) (o : Oracle) : IterationState × List Effect :=
  let s1 := validateAndEngineerNode s o
  let s2 := submitBacktestNode s1 o
  let s3 := waitForResultNode s2 o
  let s4 := (invokeAnalystNode s3 o).fst
  decideNextNode s4

/-- OptimizationContext from context.py. -/
structure OptCtx where
  run_id : String
  base_strategy_id : String
  current_iteration : Nat
  max_iterations : Nat
  best_strategy_id : Option String
  best_sharpe : PyFloat
  current_strategy_id : String
  current_code : String
  previous_feedback : Option String
  backtest_config : List (String × String)
  status : String
deriving DecidableEq, Repr

/-- OptimizationContext.to_iteration_state. -/
def toIterationState (c : OptCtx) : IterationState :=
  { optimization_run_id := c.run_id,
    current_iteration := c.current_iteration,
    base_strategy_id := c.base_strategy_id,
    current_strategy_id := c.current_strategy_id,
    backtest_config := c.backtest_config,
    input_code := c.current_code,
    input_feedback := c.previous_feedback,
    mode := if c.current_iteration = 0 then "new" else "evolve",
    best_sharpe := c.best_sharpe,
    best_strategy_id := c.best_strategy_id,
    engineer_result := none,
    generated_strategy_id := none,
    backtest_job_id := none,
    backtest_result := none,
    analyst_decision := none,
    analyst_feedback := none,
    validation_passed := false,
    validation_retry_count := 0,
    should_terminate := false,
    termination_reason := none,
    is_new_best := false,
    new_best_sharpe := none }

/-- OptimizationContext.save_iteration_result: updates the local context
(best tracking, current strategy, feedback, iteration counter) and, on a
terminating result, issues a control_optimization call for the reasons
"approved" (complete) and "archived" or "validation_failed" (fail); any
other reason issues no call. -/
def saveIterationResult (c : OptCtx) (r : IterationState) : OptCtx × List Effect :=
  let c1 :=
    if r.is_new_best && truthyStr r.generated_strategy_id then
      { c with best_strategy_id := r.generated_strategy_id,
               best_sharpe := r.new_best_sharpe.getD c.best_sharpe }
    else c
  let c2 :=
    match r.generated_strategy_id with
    | some g => if g ≠ "" then { c1 with current_strategy_id := g } else c1
    | none => c1
  let c3 :=
    if truthyStr r.analyst_feedback then
      { c2 with previous_feedback := r.analyst_feedback }
    else c2
  let c4 := { c3 with current_iteration := c3.current_iteration + 1 }
  let effects :=
    if r.should_terminate then
      let reason := r.termination_reason.getD "unknown"
      if reason = "approved" then
        [Effect.control c.run_id "complete" (some reason) c4.best_strategy_id]
      else if reason = "archived" || reason = "validation_failed" then
        [Effect.control c.run_id "fail" (some reason) none]
      else []
    else []
  (c4, effects)

/-- OptimizationContext.is_complete. -/
def isComplete (c : OptCtx) : Bool :=
  c.status = "completed" || c.status = "failed" || c.status = "cancelled"

/-- The result envelope built by OrchestratorRunner._build_result. -/
structure RunResult where
  run_id : String
  base_strategy_id : String
  iterations_completed : Nat
  max_iterations : Nat
  best_strategy_id : Option String
  best_sharpe : PyFloat
  termination_reason : Option String
  status : String
  error : Option String
deriving DecidableEq, Repr

/-- OrchestratorRunner._build_result.  The source passes the Python
result.get("termination_reason") through, which can be None, hence the
Option.  status is "completed" only for "approved" and "max_iterations". -/
def buildResult (c : OptCtx) (reason : Option String) (error : Option String) : RunResult :=
  { run_id := c.run_id,
    base_strategy_id := c.base_strategy_id,
    iterations_completed := c.current_iteration,
    max_iterations := c.max_iterations,
    best_strategy_id := c.best_strategy_id,
    best_sharpe := c.best_sharpe,
    termination_reason := reason,
    status :=
      if reason = some "approved" || reason = some "max_iterations" then "completed"
      else "failed",
    error := error }

/-- Outcome of a runner invocation.  fuelOut marks model fuel running
out (the source loop has no intrinsic bound because the reload comes
from the backend); no theorem depends on reaching it. -/
inductive RunOutcome where
  | done (r : RunResult)
  | fuelOut
deriving DecidableEq, Repr

/-- Environment of one runner invocation: what OptimizationContext.load
returns at entry for the fixed backend state, the oracle for the i-th
pipeline invocation, the context the i-th reload returns, and an
optional injected exception for the i-th loop body (modelling the
graph invocation or the save raising; the runner catches it). -/
structure RunnerEnv where
  initialCtx : OptCtx
  oracle : Nat → Oracle
  reload : Nat → OptCtx
  crash : Nat → Option String

/-- The `while context.has_iterations_remaining()` loop of
OrchestratorRunner.run_optimization.  i counts loop turns (for oracle
indexing); maxIterParam is the max_iterations argument of
run_optimization, used only in the iteration-started event payload. -/
def runLoop (env : RunnerEnv) (runId : String) (maxIterParam : Nat) :
    Nat → Nat → OptCtx → RunOutcome × List Effect
  | 0, _, _ => (.fuelOut, [])
  | fuel + 1, i, c =>
    if c.current_iteration < c.max_iterations then
      let ev1 := Effect.publish (eventsAttr "OPTIMIZATION_ITERATION_STARTED")
        (.iterStarted runId c.current_iteration maxIterParam)
      match env.crash i with
      | some e =>
        ((.done (buildResult c (some "exception") (some e))),
         [ev1, Effect.control runId "fail" (some ("iteration_exception: " ++ e)) none])
      | none =>
        let pr := pipelineRun (toIterationState c) (env.oracle i)
        let result := pr.fst
        let sv := saveIterationResult c result
        let c1 := sv.fst
        let ev2 := Effect.publish (eventsAttr "OPTIMIZATION_ITERATION_COMPLETED")
          (.iterCompleted runId (c1.current_iteration - 1) result.analyst_decision
             result.new_best_sharpe result.is_new_best)
        let evts := ev1 :: pr.snd ++ sv.snd ++ [ev2]
        if result.should_terminate then
          ((.done (buildResult c1 result.termination_reason none)), evts)
        else
          let rest := runLoop env runId maxIterParam fuel (i + 1) (env.reload i)
          (rest.fst, evts ++ rest.snd)
    else
      ((.done (buildResult c (some "max_iterations") none)),
       [Effect.control runId "complete" (some "max_iterations") c.best_strategy_id])

/-- OrchestratorRunner.run_optimization for a fixed backend state: load
the context; if it is terminal return the already_complete envelope
without any effect; otherwise issue control_optimization(resume) and
enter the iteration loop.  base is the base_strategy_id argument (used
by the source only for logging). -/
def runOptimization (env : RunnerEnv) (runId base : String) (maxIterParam : Nat)
    (fuel : Nat) : RunOutcome × List Effect :=
  let c := env.initialCtx
  if isComplete c then ((.done (buildResult c (some "already_complete") none)), [])
  else
    let body := runLoop env runId maxIterParam fuel 0 c
    (body.fst, Effect.control runId "resume" none none :: body.snd)

/-- OrchestratorRunner.resume_optimization: load the context; if it is
terminal return the already_complete envelope; otherwise delegate to
run_optimization with the loaded base_strategy_id and max_iterations. -/
def resumeOptimization (env : RunnerEnv) (runId : String) (fuel : Nat) :
    RunOutcome × List Effect :=
  let c := env.initialCtx
  if isComplete c then ((.done (buildResult c (some "already_complete") none)), [])
  else runOptimization env runId c.base_strategy_id c.max_iterations fuel

/-- The canonical gRPC status codes (grpc.StatusCode). -/
inductive StatusCode where
  | OK | CANCELLED | UNKNOWN | INVALID_ARGUMENT | DEADLINE_EXCEEDED
  | NOT_FOUND | ALREADY_EXISTS | PERMISSION_DENIED | RESOURCE_EXHAUSTED
  | FAILED_PRECONDITION | ABORTED | OUT_OF_RANGE | UNIMPLEMENTED
  | INTERNAL | UNAVAILABLE | DATA_LOSS | UNAUTHENTICATED
deriving DecidableEq, Repr

/-- The exception classes of grpc_client/client.py; baseError is the
FreqSearchClientError base class itself. -/
inductive ErrClass where
  | baseError | connectionError | notFoundError | validationError
  | internalError | cancelledError | timeoutError
deriving DecidableEq, Repr

/-- The error_map dict literal of _map_grpc_error. -/
def errorMap : List (StatusCode × ErrClass) :=
  [(.NOT_FOUND, .notFoundError),
   (.INVALID_ARGUMENT, .validationError),
   (.FAILED_PRECONDITION, .validationError),
   (.OUT_OF_RANGE, .validationError),
   (.INTERNAL, .internalError),
   (.UNKNOWN, .internalError),
   (.DATA_LOSS, .internalError),
   (.UNAVAILABLE, .connectionError),
   (.DEADLINE_EXCEEDED, .timeoutError),
   (.CANCELLED, .cancelledError)]

/-- The function _map_grpc_error: error_map.get(code, FreqSearchClientError). -/
def mapGrpcError (code : StatusCode) : ErrClass :=
  ((errorMap.find? (fun p => p.fst = code)).map (fun p => p.snd)).getD .baseError

/-- One persisted iteration as driven by the runner: run the pipeline on
the state derived from the context and save the result back. -/
def iterStep (o : Oracle) (c : OptCtx) : OptCtx :=
  (saveIterationResult c (pipelineRun (toIterationState c) o).fst).fst

/-- The sequence of contexts across persisted iterations, with the n-th
pipeline invocation using the n-th oracle. -/
def ctxSeq (c0 : OptCtx) (os : Nat → Oracle) : Nat → OptCtx
  | 0 => c0
  | n + 1 => iterStep (os n) (ctxSeq c0 os n)

/-- An effect is a publish whose routing key is one of the two
run-terminal keys optimization.completed / optimization.failed. -/
def isTerminalEvent : Effect → Bool
  | .publish (some k) _ => k = "optimization.completed" || k = "optimization.failed"
  | _ => false

/-- Number of run-terminal events in a trace. -/
def countTerminalEvents (l : List Effect) : Nat := l.countP isTerminalEvent

/-- A concrete running context used for witnesses. -/
def sampleCtx : OptCtx :=
  { run_id := "R1", base_strategy_id := "B", current_iteration := 0,
    max_iterations := 5, best_strategy_id := none, best_sharpe := .ninf,
    current_strategy_id := "B", current_code := "class S: pass",
    previous_feedback := none, backtest_config := [], status := "running" }

/-- Oracle whose every external call raises. -/
def crashEngineerOracle : Oracle :=
  { engineer := fun _ => .error "boom",
    validate := fun _ => .error "down",
    createStrategy := .error "down",
    submitBacktest := .error "down",
    job := fun _ => .error "down",
    result := fun _ => .error "down",
    analyst := .error "down" }

/-- Oracle whose Engineer always reports failed self-validation, driving
stage 1 to retry exhaustion. -/
def invalidEngineerOracle : Oracle :=
  { crashEngineerOracle with
    engineer := fun _ =>
      .ok { validation_passed := false, validation_errors := ["bad indicator"],
            generated_code := "x = 1", code := "" } }

/-- Oracle for a fully successful iteration with sharpe 3/2 and an
analyst decision of modify. -/
def modifyOracle : Oracle :=
  { engineer := fun _ =>
      .ok { validation_passed := true, validation_errors := [],
            generated_code := "class S2: pass", code := "" },
    validate := fun _ => .ok { valid := true, errors := [] },
    createStrategy := .ok "S1",
    submitBacktest := .ok "J1",
    job := fun _ => .ok { status := some "completed", error := none },
    result := fun _ =>
      .ok { status := some "completed", error := none, sharpe := some (.fin 2) },
    analyst := .ok { decision := some "modify", suggestion_description := some "tweak roi",
                     issues := [], root_causes := [] } }

/-- Oracle family for witness sequences: every iteration uses the
successful modify oracle. -/
def sampleOracles : Nat → Oracle := fun _ => modifyOracle

/-- Oracle whose backtest job polls as failed with a code error. -/
def failedJobOracle : Oracle :=
  { crashEngineerOracle with
    job := fun _ => .ok { status := some "failed", error := some "NameError: x" } }

/-- A state holding a pending backtest job id. -/
def jobState : IterationState :=
  { toIterationState sampleCtx with backtest_job_id := some "J1" }

/-- A state holding a healthy (non-failed) backtest result. -/
def resultState : IterationState :=
  { toIterationState sampleCtx with
    backtest_result :=
      some { status := some "completed", error := none, sharpe := some (.fin 1) } }

/-- Oracle whose analyst answers with the upper-cased decision APPROVE. -/
def approveUpperOracle : Oracle :=
  { crashEngineerOracle with
    analyst := .ok { decision := some "APPROVE", suggestion_description := none,
                     issues := [], root_causes := [] } }

/-- Runner environment whose stored run is already completed. -/
def completedEnv : RunnerEnv :=
  { initialCtx := { sampleCtx with status := "completed" },
    oracle := fun _ => crashEngineerOracle,
    reload := fun _ => sampleCtx,
    crash := fun _ => none }

/-- Runner environment whose run allows zero iterations, so the loop
terminates immediately on the max_iterations path. -/
def zeroIterEnv : RunnerEnv :=
  { initialCtx := { sampleCtx with max_iterations := 0 },
    oracle := fun _ => crashEngineerOracle,
    reload := fun _ => sampleCtx,
    crash := fun _ => none }

/-- The iteration state used for the repeated-save experiment. -/
def sampleResult : IterationState := toIterationState sampleCtx

/-! ## Theorems -/

theorem PyFloat.gt_trans {a b c : PyFloat} (h1 : PyFloat.gt b a = true)
    (h2 : PyFloat.gt c b = true) : PyFloat.gt c a = true := by
  cases a <;> cases b <;> cases c <;> simp_all [PyFloat.gt] <;> linarith

theorem PyFloat.sle_refl (a : PyFloat) : PyFloat.sle a a := Or.inl rfl

theorem PyFloat.sle_trans {a b c : PyFloat} (h1 : PyFloat.sle a b)
    (h2 : PyFloat.sle b c) : PyFloat.sle a c := by
  rcases h1 with h1 | h1 <;> rcases h2 with h2 | h2
  · exact Or.inl (h2.trans h1)
  · rw [h1] at h2
    exact Or.inr h2
  · rw [h2]
    exact Or.inr h1
  · exact Or.inr (PyFloat.gt_trans h1 h2)

/-- Each save advances current_iteration by exactly one, unconditionally. -/
theorem save_increments (c : OptCtx) (r : IterationState) :
    (saveIterationResult c r).fst.current_iteration = c.current_iteration + 1 := by
  unfold saveIterationResult
  rcases hg : r.generated_strategy_id with _ | g <;>
    simp only [hg] <;> split_ifs <;> rfl

/-- Claim C6 (counterexample): saving the same iteration result twice is
not idempotent for current_iteration — the second save moves it from 1
to 2. -/
theorem c6_counterexample :
    ¬ ((saveIterationResult (saveIterationResult sampleCtx sampleResult).fst
          sampleResult).fst.current_iteration
        = (saveIterationResult sampleCtx sampleResult).fst.current_iteration) := by
  decide

/-- Claim C6 (amended): save_iteration_result increments
current_iteration by exactly one on every call, with no
iteration_index-based deduplication, so saving the same result twice
increments the counter twice. -/
theorem c6_save_not_idempotent (c : OptCtx) (r : IterationState) :
    (saveIterationResult (saveIterationResult c r).fst r).fst.current_iteration
      = c.current_iteration + 2 := by
  rw [save_increments, save_increments]

/-- Claim C9 (counterexample): PERMISSION_DENIED is not in error_map, and
the fallback is the FreqSearchClientError base class, not InternalError. -/
theorem c9_counterexample :
    mapGrpcError .PERMISSION_DENIED = .baseError ∧
    ErrClass.baseError ≠ ErrClass.internalError := by decide

/-- Claim C9 (amended): the full mapping of _map_grpc_error — the listed
positive mappings hold, OUT_OF_RANGE additionally maps to
ValidationError, INTERNAL / UNKNOWN / DATA_LOSS map to InternalError,
and every unlisted status code maps to the FreqSearchClientError base
class rather than InternalError. -/
theorem c9_error_mapping :
    mapGrpcError .NOT_FOUND = .notFoundError ∧
    mapGrpcError .INVALID_ARGUMENT = .validationError ∧
    mapGrpcError .FAILED_PRECONDITION = .validationError ∧
    mapGrpcError .OUT_OF_RANGE = .validationError ∧
    mapGrpcError .INTERNAL = .internalError ∧
    mapGrpcError .UNKNOWN = .internalError ∧
    mapGrpcError .DATA_LOSS = .internalError ∧
    mapGrpcError .UNAVAILABLE = .connectionError ∧
    mapGrpcError .DEADLINE_EXCEEDED = .timeoutError ∧
    mapGrpcError .CANCELLED = .cancelledError ∧
    mapGrpcError .OK = .baseError ∧
    mapGrpcError .ALREADY_EXISTS = .baseError ∧
    mapGrpcError .PERMISSION_DENIED = .baseError ∧
    mapGrpcError .RESOURCE_EXHAUSTED = .baseError ∧
    mapGrpcError .ABORTED = .baseError ∧
    mapGrpcError .UNIMPLEMENTED = .baseError ∧
    mapGrpcError .UNAUTHENTICATED = .baseError := by decide

/-- Claim C5: the pipeline terminates validation exhaustion with reason
validation_max_retries, but save_iteration_result only issues a fail
control call for the reasons archived and validation_failed (a value no
pipeline node produces), so a validation_max_retries result triggers no
control_optimization call at all — unlike the sibling reason archived. -/
theorem c5_validation_max_retries_skips_control :
    (pipelineRun (toIterationState sampleCtx) invalidEngineerOracle).fst.should_terminate
        = true ∧
    (pipelineRun (toIterationState sampleCtx) invalidEngineerOracle).fst.termination_reason
        = some "validation_max_retries" ∧
    (saveIterationResult sampleCtx
        (pipelineRun (toIterationState sampleCtx) invalidEngineerOracle).fst).snd = [] ∧
    (saveIterationResult sampleCtx
        { (pipelineRun (toIterationState sampleCtx) invalidEngineerOracle).fst with
          termination_reason := some "archived" }).snd
        = [Effect.control "R1" "fail" (some "archived") none] := by decide

/-- Claim C7 (counterexample): the Analyst answering APPROVE — an upper
casing of approve — is mapped to NEEDS_MODIFICATION, not READY_FOR_LIVE:
the decision mapping is not case-insensitive. -/
theorem c7_counterexample :
    (invokeAnalystNode resultState approveUpperOracle).fst.analyst_decision
        = some "NEEDS_MODIFICATION" ∧
    (some "NEEDS_MODIFICATION" : Option String) ≠ some "READY_FOR_LIVE" := by decide

/-- Claim C7 (amended): the decision mapping is an exact, case-sensitive
match on the lowercase strings approve / modify / archive; every other
decision string, including any other casing of those words, falls
through to NEEDS_MODIFICATION. -/
theorem c7_decision_mapping (s : IterationState) (o : Oracle)
    (br : BacktestResult) (ar : AnalystResult)
    (hbr : s.backtest_result = some br) (hf : br.isFalsy = false)
    (hst : br.status ≠ some "failed") (ha : o.analyst = .ok ar) :
    (invokeAnalystNode s o).fst.analyst_decision
        = some (decisionMap (ar.decision.getD "modify")) ∧
    decisionMap "approve" = "READY_FOR_LIVE" ∧
    decisionMap "modify" = "NEEDS_MODIFICATION" ∧
    decisionMap "archive" = "ARCHIVE" ∧
    ∀ d : String, d ≠ "approve" → d ≠ "archive" →
      decisionMap d = "NEEDS_MODIFICATION" := by
  refine ⟨?_, by decide, by decide, by decide, ?_⟩
  · unfold invokeAnalystNode
    rw [hbr]
    simp [hf, hst, ha]
  · intro d h1 h2
    simp [decisionMap, h1, h2]

/-- Claim C7 witness: the amended mapping applied to the APPROVE answer. -/
theorem c7_witness :
    (invokeAnalystNode resultState approveUpperOracle).fst.analyst_decision
        = some "NEEDS_MODIFICATION" ∧ decisionMap "archive" = "ARCHIVE" := by
  have h := c7_decision_mapping resultState approveUpperOracle
    { status := some "completed", error := none, sharpe := some (.fin 1) }
    { decision := some "APPROVE", suggestion_description := none,
      issues := [], root_causes := [] }
    rfl (by decide) (by decide) rfl
  exact ⟨h.1.trans (by decide), h.2.2.2.1⟩

/-- The retry loop calls the Engineer at most fuel times. -/
theorem veLoop_calls_le (o : Oracle) :
    ∀ fuel retry, (veLoop o retry fuel).snd ≤ fuel := by
  intro fuel
  induction fuel with
  | zero => intro retry; simp [veLoop]
  | succ n ih =>
    intro retry
    unfold veLoop
    cases h : veStep o retry with
    | finish w => simp [h]
    | again =>
      simp only [h]
      have := ih (retry + 1)
      omega

/-- If every pass up to the budget falls through, the loop exhausts. -/
theorem veLoop_exhaust (o : Oracle) :
    ∀ fuel retry, (∀ k, retry ≤ k → k < retry + fuel → veStep o k = .again) →
      (veLoop o retry fuel).fst = .exhausted (retry + fuel) := by
  intro fuel
  induction fuel with
  | zero => intro retry h; simp [veLoop]
  | succ n ih =>
    intro retry h
    have hs : veStep o retry = .again := h retry (Nat.le_refl _) (by omega)
    unfold veLoop
    simp only [hs]
    have hrec := ih (retry + 1) (fun k h1 h2 => h k (by omega) (by omega))
    simp only [hrec]
    congr 1
    omega

/-- Claim C2 (counterexample): with an Engineer that raises on the first
attempt, no attempt passes validation (validation_passed is false), yet
the termination reason is engineer_exception, not validation_max_retries. -/
theorem c2_counterexample :
    (validateAndEngineerNode (toIterationState sampleCtx)
        crashEngineerOracle).validation_passed = false ∧
    (validateAndEngineerNode (toIterationState sampleCtx)
        crashEngineerOracle).termination_reason ≠ some "validation_max_retries" := by
  decide

/-- Claim C2 (amended): validate_and_engineer makes at most
MAX_VALIDATION_RETRIES (5) Engineer attempts and never changes
current_iteration; whenever validation did not pass the state
terminates, with reason validation_max_retries on retry exhaustion but
engineer_exception or engineer_no_code on the two early-return paths;
exhaustion (all five passes falling through) yields exactly
validation_max_retries with retry count 5. -/
theorem c2_validation_retries (s : IterationState) (o : Oracle) :
    veEngineerCalls o ≤ MAX_VALIDATION_RETRIES ∧
    (validateAndEngineerNode s o).current_iteration = s.current_iteration ∧
    ((validateAndEngineerNode s o).validation_passed = false →
      (validateAndEngineerNode s o).should_terminate = true ∧
      ((validateAndEngineerNode s o).termination_reason = some "engineer_exception" ∨
       (validateAndEngineerNode s o).termination_reason = some "engineer_no_code" ∨
       (validateAndEngineerNode s o).termination_reason
           = some "validation_max_retries")) ∧
    ((∀ k < MAX_VALIDATION_RETRIES, attemptContinues o k = true) →
      (validateAndEngineerNode s o).termination_reason
          = some "validation_max_retries" ∧
      (validateAndEngineerNode s o).validation_retry_count
          = MAX_VALIDATION_RETRIES) := by
  refine ⟨veLoop_calls_le o _ _, ?_, ?_, ?_⟩
  · unfold validateAndEngineerNode
    cases (veLoop o 0 MAX_VALIDATION_RETRIES).fst <;> simp [applyVE]
  · unfold validateAndEngineerNode
    cases (veLoop o 0 MAX_VALIDATION_RETRIES).fst <;> simp [applyVE]
  · intro h
    have h5 : (veLoop o 0 MAX_VALIDATION_RETRIES).fst
        = .exhausted MAX_VALIDATION_RETRIES := by
      have := veLoop_exhaust o MAX_VALIDATION_RETRIES 0
        (fun k h1 h2 => of_decide_eq_true (h k (by omega)))
      simpa using this
    unfold validateAndEngineerNode
    rw [h5]
    exact ⟨rfl, rfl⟩

/-- Claim C2 witness: the amended statement applied to an Engineer whose
self-validation fails five times. -/
theorem c2_witness :
    veEngineerCalls invalidEngineerOracle ≤ MAX_VALIDATION_RETRIES ∧
    (∀ k < MAX_VALIDATION_RETRIES, attemptContinues invalidEngineerOracle k = true) ∧
    (validateAndEngineerNode sampleResult invalidEngineerOracle).termination_reason
        = some "validation_max_retries" := by
  have h := c2_validation_retries sampleResult invalidEngineerOracle
  exact ⟨h.1, by decide, (h.2.2.2 (by decide)).1⟩

/-- A falling-through poll pass steps the loop forward. -/
theorem waitLoop_skip (o : Oracle) (k fuel : Nat) (h : pollStep o k = .again) :
    waitLoop o k (fuel + 1) = waitLoop o (k + 1) fuel := by
  conv_lhs => unfold waitLoop
  rw [h]

/-- n consecutive falling-through poll passes advance the loop by n. -/
theorem waitLoop_advance (o : Oracle) :
    ∀ n k fuel, (∀ j, k ≤ j → j < k + n → pollStep o j = .again) →
      waitLoop o k (n + fuel) = waitLoop o (k + n) fuel := by
  intro n
  induction n with
  | zero => intro k fuel h; simp
  | succ m ih =>
    intro k fuel h
    have h0 : pollStep o k = .again := h k (Nat.le_refl _) (by omega)
    have e1 : m + 1 + fuel = (m + fuel) + 1 := by omega
    rw [e1, waitLoop_skip o k (m + fuel) h0]
    have hrec := ih (k + 1) fuel (fun j h1 h2 => h j (by omega) (by omega))
    rw [hrec]
    congr 1
    omega

/-- Claim C3: when polling observes the job failed (after any number of
falling-through polls within the 600 s budget), wait_for_result returns
the synthetic failed result without touching should_terminate, and
invoke_analyst then short-circuits — without calling the LLM analyst —
to NEEDS_MODIFICATION with a feedback string containing the job error
message. -/
theorem c3_failed_backtest_shortcircuit (s : IterationState) (o : Oracle)
    (jid : String) (n : Nat) (jr : JobResponse) (err : String)
    (hjob : s.backtest_job_id = some jid) (hjid : jid ≠ "")
    (hn : n < 600 / 5)
    (hpoll : ∀ k < n, pollContinues o k = true)
    (hjr : o.job n = .ok jr) (hst : jr.status = some "failed")
    (herr : jr.error = some err) :
    (waitForResultNode s o).backtest_result
        = some { status := some "failed", error := some err, sharpe := none } ∧
    (waitForResultNode s o).should_terminate = s.should_terminate ∧
    (invokeAnalystNode (waitForResultNode s o) o).snd = false ∧
    (invokeAnalystNode (waitForResultNode s o) o).fst.analyst_decision
        = some "NEEDS_MODIFICATION" ∧
    (invokeAnalystNode (waitForResultNode s o) o).fst.analyst_feedback
        = some ("Backtest failed: " ++ err) ∧
    ∃ pre post, "Backtest failed: " ++ err = pre ++ err ++ post := by
  have hps : pollStep o n = .finish (.synthFailed err) := by
    unfold pollStep
    rw [hjr]
    simp [hst, herr]
  have hw : waitLoop o 0 (600 / 5) = .synthFailed err := by
    have hdec : (600 / 5 : Nat) = n + ((600 / 5) - n) := by omega
    rw [hdec,
      waitLoop_advance o n 0 ((600 / 5) - n)
        (fun j h1 h2 => of_decide_eq_true (hpoll j (by omega)))]
    obtain ⟨m, hm⟩ : ∃ m, (600 / 5) - n = m + 1 := ⟨(600 / 5) - n - 1, by omega⟩
    have e0 : (0 + n) = n := by omega
    rw [e0, hm]
    unfold waitLoop
    rw [hps]
  have hnode : waitForResultNode s o = applyWait s (.synthFailed err) := by
    unfold waitForResultNode
    rw [hjob]
    simp [hjid, hw]
  rw [hnode]
  refine ⟨rfl, rfl, ?_, ?_, ?_, "Backtest failed: ", "", by simp⟩ <;>
    simp [applyWait, invokeAnalystNode, BacktestResult.isFalsy]

/-- Claim C3 witness: the short-circuit observed on a job that fails at
the first poll with a NameError. -/
theorem c3_witness :
    (waitForResultNode jobState failedJobOracle).backtest_result
        = some { status := some "failed", error := some "NameError: x", sharpe := none } ∧
    (invokeAnalystNode (waitForResultNode jobState failedJobOracle)
        failedJobOracle).snd = false ∧
    (invokeAnalystNode (waitForResultNode jobState failedJobOracle)
        failedJobOracle).fst.analyst_feedback
        = some "Backtest failed: NameError: x" := by
  have h := c3_failed_backtest_shortcircuit jobState failedJobOracle "J1" 0
    { status := some "failed", error := some "NameError: x" } "NameError: x"
    rfl (by decide) (by decide) (by decide) rfl rfl rfl
  exact ⟨h.1, h.2.2.1, h.2.2.2.2.1⟩

/-- Stage 1 never touches the best-tracking fields. -/
theorem ve_best_pres (s : IterationState) (o : Oracle) :
    (validateAndEngineerNode s o).best_sharpe = s.best_sharpe ∧
    (validateAndEngineerNode s o).is_new_best = s.is_new_best ∧
    (validateAndEngineerNode s o).new_best_sharpe = s.new_best_sharpe := by
  unfold validateAndEngineerNode
  cases (veLoop o 0 MAX_VALIDATION_RETRIES).fst <;> simp [applyVE]

/-- Stage 2 never touches the best-tracking fields. -/
theorem submit_best_pres (s : IterationState) (o : Oracle) :
    (submitBacktestNode s o).best_sharpe = s.best_sharpe ∧
    (submitBacktestNode s o).is_new_best = s.is_new_best ∧
    (submitBacktestNode s o).new_best_sharpe = s.new_best_sharpe := by
  unfold submitBacktestNode
  split
  · exact ⟨rfl, rfl, rfl⟩
  · split
    · simp
    · split <;> simp

/-- Stage 3 never touches the best-tracking fields. -/
theorem wait_best_pres (s : IterationState) (o : Oracle) :
    (waitForResultNode s o).best_sharpe = s.best_sharpe ∧
    (waitForResultNode s o).is_new_best = s.is_new_best ∧
    (waitForResultNode s o).new_best_sharpe = s.new_best_sharpe := by
  unfold waitForResultNode
  split
  · exact ⟨rfl, rfl, rfl⟩
  · split
    · exact ⟨rfl, rfl, rfl⟩
    · cases (waitLoop o 0 (600 / 5)) <;> simp [applyWait]

/-- Stage 4 never touches the best-tracking fields. -/
theorem analyst_best_pres (s : IterationState) (o : Oracle) :
    (invokeAnalystNode s o).fst.best_sharpe = s.best_sharpe ∧
    (invokeAnalystNode s o).fst.is_new_best = s.is_new_best ∧
    (invokeAnalystNode s o).fst.new_best_sharpe = s.new_best_sharpe := by
  unfold invokeAnalystNode
  split
  · exact ⟨rfl, rfl, rfl⟩
  · split
    · exact ⟨rfl, rfl, rfl⟩
    · split
      · simp
      · split <;> simp

/-- Stage 5 marks a new best, with new_best_sharpe set to the current
sharpe, exactly when the current sharpe is strictly greater than the
incoming best_sharpe; it never changes best_sharpe itself. -/
theorem decide_best_char (s : IterationState) :
    (decideNextNode s).fst.best_sharpe = s.best_sharpe ∧
    ((decideNextNode s).fst.is_new_best = s.is_new_best ∧
       (decideNextNode s).fst.new_best_sharpe = s.new_best_sharpe ∨
     ((decideNextNode s).fst.is_new_best = true ∧
       ∃ cur, (decideNextNode s).fst.new_best_sharpe = some cur ∧
         PyFloat.gt cur s.best_sharpe = true)) := by
  unfold decideNextNode
  split
  · simp
  · dsimp only
    split_ifs with hg h1 h2 <;> simp_all

/-- The pipeline output preserves best_sharpe and marks a new best only
with a sharpe strictly above the incoming best_sharpe. -/
theorem pipeline_best_char (s : IterationState) (o : Oracle) :
    (pipelineRun s o).fst.best_sharpe = s.best_sharpe ∧
    ((pipelineRun s o).fst.is_new_best = s.is_new_best ∧
       (pipelineRun s o).fst.new_best_sharpe = s.new_best_sharpe ∨
     ((pipelineRun s o).fst.is_new_best = true ∧
       ∃ cur, (pipelineRun s o).fst.new_best_sharpe = some cur ∧
         PyFloat.gt cur s.best_sharpe = true)) := by
  unfold pipelineRun
  dsimp only
  obtain ⟨e1, e2, e3⟩ := ve_best_pres s o
  obtain ⟨f1, f2, f3⟩ := submit_best_pres (validateAndEngineerNode s o) o
  obtain ⟨g1, g2, g3⟩ := wait_best_pres (submitBacktestNode (validateAndEngineerNode s o) o) o
  obtain ⟨k1, k2, k3⟩ := analyst_best_pres
    (waitForResultNode (submitBacktestNode (validateAndEngineerNode s o) o) o) o
  obtain ⟨d1, d2⟩ := decide_best_char
    (invokeAnalystNode (waitForResultNode (submitBacktestNode
      (validateAndEngineerNode s o) o) o) o).fst
  have hb : (invokeAnalystNode (waitForResultNode (submitBacktestNode
      (validateAndEngineerNode s o) o) o) o).fst.best_sharpe = s.best_sharpe := by
    rw [k1, g1, f1, e1]
  constructor
  · rw [d1, hb]
  · rcases d2 with ⟨ha, hq⟩ | ⟨ha, cur, hc, hd⟩
    · left
      constructor
      · rw [ha, k2, g2, f2, e2]
      · rw [hq, k3, g3, f3, e3]
    · right
      refine ⟨ha, cur, hc, ?_⟩
      rw [hb] at hd
      exact hd

/-- best_sharpe after a save: replaced by the recorded new best exactly
when the result marks a new best with a truthy generated strategy id. -/
theorem save_best_eq (c : OptCtx) (r : IterationState) :
    (saveIterationResult c r).fst.best_sharpe
      = (if r.is_new_best && truthyStr r.generated_strategy_id then
           r.new_best_sharpe.getD c.best_sharpe
         else c.best_sharpe) := by
  unfold saveIterationResult
  dsimp only
  rcases hg : r.generated_strategy_id with _ | g <;>
    simp only [hg] <;> split_ifs <;> simp_all [truthyStr]

/-- A save cannot lower best_sharpe when the result obeys the pipeline
characterization. -/
theorem save_best_mono (c : OptCtx) (r : IterationState)
    (h : r.is_new_best = true →
      ∃ cur, r.new_best_sharpe = some cur ∧ PyFloat.gt cur c.best_sharpe = true) :
    PyFloat.sle c.best_sharpe (saveIterationResult c r).fst.best_sharpe := by
  rw [save_best_eq]
  split_ifs with hc
  · have hand : r.is_new_best = true ∧ truthyStr r.generated_strategy_id = true := by
      simpa using hc
    obtain ⟨cur, h1, h2⟩ := h hand.1
    rw [h1]
    exact Or.inr h2
  · exact PyFloat.sle_refl _

/-- One persisted iteration never lowers the context best_sharpe. -/
theorem iterStep_best_mono (o : Oracle) (c : OptCtx) :
    PyFloat.sle c.best_sharpe (iterStep o c).best_sharpe := by
  unfold iterStep
  apply save_best_mono
  intro hin
  obtain ⟨hb, hd⟩ := pipeline_best_char (toIterationState c) o
  rcases hd with ⟨ha, _⟩ | ⟨_, cur, hc2, hd2⟩
  · rw [hin] at ha
    simp [toIterationState] at ha
  · refine ⟨cur, hc2, ?_⟩
    have hbc : (toIterationState c).best_sharpe = c.best_sharpe := rfl
    rw [hbc] at hd2
    exact hd2

/-- Claim C1: best_sharpe is monotonically non-decreasing along any
sequence of pipeline invocations and saves: decide_next marks a new
best only for a sharpe strictly above the incoming best, and save
replaces best_sharpe only in that case. -/
theorem c1_best_sharpe_monotone (c0 : OptCtx) (os : Nat → Oracle) (n m : Nat)
    (h : n ≤ m) :
    PyFloat.sle (ctxSeq c0 os n).best_sharpe (ctxSeq c0 os m).best_sharpe := by
  induction h with
  | refl => exact PyFloat.sle_refl _
  | step h2 ih => exact PyFloat.sle_trans ih (iterStep_best_mono _ _)

/-- Claim C1 witness: a run whose first iteration establishes sharpe 2
as the new best. -/
theorem c1_witness :
    (0 : Nat) ≤ 2 ∧
    PyFloat.sle (ctxSeq sampleCtx sampleOracles 0).best_sharpe
      (ctxSeq sampleCtx sampleOracles 2).best_sharpe :=
  ⟨Nat.zero_le 2, c1_best_sharpe_monotone sampleCtx sampleOracles 0 2 (Nat.zero_le 2)⟩

/-- Counting terminal events distributes over append. -/
theorem cte_append (l1 l2 : List Effect) :
    countTerminalEvents (l1 ++ l2) = countTerminalEvents l1 + countTerminalEvents l2 := by
  unfold countTerminalEvents
  exact List.countP_append _ _ _

/-- Stage 5 publishes no run-terminal event (its only publish goes
through the absent OPTIMIZATION_NEW_BEST attribute). -/
theorem decideNext_no_terminal_events (s : IterationState) :
    countTerminalEvents (decideNextNode s).snd = 0 := by
  unfold decideNextNode
  split
  · rfl
  · dsimp only
    split_ifs <;>
      simp [countTerminalEvents, List.countP, List.countP.go, isTerminalEvent,
        show eventsAttr "OPTIMIZATION_NEW_BEST" = none from rfl]

/-- The pipeline publishes no run-terminal event. -/
theorem pipeline_no_terminal_events (s : IterationState) (o : Oracle) :
    countTerminalEvents (pipelineRun s o).snd = 0 := by
  unfold pipelineRun
  exact decideNext_no_terminal_events _

/-- A save issues control calls only, never a run-terminal event. -/
theorem save_no_terminal_events (c : OptCtx) (r : IterationState) :
    countTerminalEvents (saveIterationResult c r).snd = 0 := by
  unfold saveIterationResult
  dsimp only
  split_ifs <;>
    simp [countTerminalEvents, List.countP, List.countP.go, isTerminalEvent]

/-- The runner loop publishes no run-terminal event on any path. -/
theorem runLoop_no_terminal_events (env : RunnerEnv) (runId : String) (mip : Nat) :
    ∀ fuel i c, countTerminalEvents (runLoop env runId mip fuel i c).snd = 0 := by
  intro fuel
  induction fuel with
  | zero => intro i c; rfl
  | succ n ih =>
    intro i c
    unfold runLoop
    by_cases h : c.current_iteration < c.max_iterations
    · simp only [h, if_true]
      cases hcr : env.crash i with
      | some e =>
        simp [countTerminalEvents, List.countP, List.countP.go, isTerminalEvent,
          show eventsAttr "OPTIMIZATION_ITERATION_STARTED" = none from rfl]
      | none =>
        dsimp only
        have hp := pipeline_no_terminal_events (toIterationState c) (env.oracle i)
        have hs := save_no_terminal_events c
          (pipelineRun (toIterationState c) (env.oracle i)).fst
        have hr := ih (i + 1) (env.reload i)
        simp only [countTerminalEvents] at hp hs hr
        split_ifs with hterm <;>
          simp [countTerminalEvents, List.countP_cons, List.countP_append,
            List.countP_nil, hp, hs, hr, isTerminalEvent,
            show eventsAttr "OPTIMIZATION_ITERATION_STARTED" = none from rfl,
            show eventsAttr "OPTIMIZATION_ITERATION_COMPLETED" = none from rfl]
    · simp [h, countTerminalEvents, List.countP, List.countP.go, isTerminalEvent]

/-- Claim C4 (counterexample): a run that terminates on the
max_iterations path returns its terminal envelope having published no
optimization.completed or optimization.failed event at all. -/
theorem c4_counterexample :
    (runOptimization zeroIterEnv "R1" "B" 0 3).fst
        = .done (buildResult zeroIterEnv.initialCtx (some "max_iterations") none) ∧
    countTerminalEvents (runOptimization zeroIterEnv "R1" "B" 0 3).snd = 0 ∧
    countTerminalEvents (runOptimization zeroIterEnv "R1" "B" 0 3).snd ≠ 1 := by
  decide

/-- Claim C4 (amended): run_optimization never publishes an
optimization.completed or optimization.failed event on any path, for
any backend state, oracle behaviour, and fuel: no publish in the source
carries either key, and the Events class does not even define the
OPTIMIZATION_COMPLETED / OPTIMIZATION_FAILED attributes.  Terminal state
is recorded only through control_optimization. -/
theorem c4_no_terminal_events (env : RunnerEnv) (runId base : String)
    (mip fuel : Nat) :
    countTerminalEvents (runOptimization env runId base mip fuel).snd = 0 ∧
    eventsAttr "OPTIMIZATION_COMPLETED" = none ∧
    eventsAttr "OPTIMIZATION_FAILED" = none := by
  refine ⟨?_, rfl, rfl⟩
  unfold runOptimization
  dsimp only
  split_ifs with h
  · rfl
  · have hl := runLoop_no_terminal_events env runId mip fuel 0 env.initialCtx
    simp [countTerminalEvents, List.countP_cons, isTerminalEvent] at hl ⊢
    exact hl

/-- Claim C8: resume_optimization(run_id) is extensionally
run_optimization(run_id, loaded.base_strategy_id, loaded.max_iterations):
same result envelope and same mutating backend effects, with the
already_complete envelope returned exactly when run_optimization would
return it. -/
theorem c8_resume_equals_run (env : RunnerEnv) (runId : String) (fuel : Nat) :
    resumeOptimization env runId fuel
      = runOptimization env runId env.initialCtx.base_strategy_id
          env.initialCtx.max_iterations fuel := by
  unfold resumeOptimization runOptimization
  dsimp only
  split_ifs with h <;> rfl

/-- Claim C10: when the loaded run status is terminal, run_optimization
returns at once — no iteration, no effect — with an envelope whose
termination_reason is already_complete and whose status is "failed",
even when the stored run finished as completed. -/
theorem c10_already_complete (env : RunnerEnv) (runId base : String)
    (mip fuel : Nat) (h : isComplete env.initialCtx = true) :
    runOptimization env runId base mip fuel
      = (.done (buildResult env.initialCtx (some "already_complete") none), []) ∧
    (buildResult env.initialCtx (some "already_complete") none).termination_reason
      = some "already_complete" ∧
    (buildResult env.initialCtx (some "already_complete") none).status = "failed" := by
  refine ⟨?_, rfl, rfl⟩
  unfold runOptimization
  simp [h]

/-- Claim C10 witness: a stored run with status completed yields the
already_complete envelope with status "failed". -/
theorem c10_witness :
    isComplete completedEnv.initialCtx = true ∧
    runOptimization completedEnv "R1" "B" 5 3
      = (.done (buildResult completedEnv.initialCtx (some "already_complete") none), []) ∧
    (buildResult completedEnv.initialCtx (some "already_complete") none).status
      = "failed" := by
  have h := c10_already_complete completedEnv "R1" "B" 5 3 (by decide)
  exact ⟨by decide, h.1, h.2.2⟩

end FS
